import Mathlib

/-!
Verification of the reliable-retrieval layer of the `mpaka` content extractor.

The definitions below are a shallow embedding of `src/server.js`:

* `jsIncludes` models JavaScript `String.prototype.includes`;
* `urlProtocol` models `new URL(url).protocol` (scheme extraction);
* `getEnhancedHeaders` embeds the header-profile builder (server.js:112-153);
* `fetchWithHeaders` embeds the direct fetcher (server.js:389-454), with a
  fuel parameter making its unbounded redirect recursion a total function
  (`none` means the recursion has not produced a result within `fuel` steps);
* `attemptLoop` / `enhancedFetch` embed the retry loop (server.js:346-386);
* `apiExtract` embeds the `/api/extract` handler (server.js:457-498);
* `swFirstTimeTimeout` / `swReturningUserTimeout` embed the environment
  defaults injected into the service worker (server.js:550-551).

External collaborators (the WHATWG URL parser, zlib codecs, Buffer decoding,
the network) are modelled by small executable stand-ins documented at their
definitions; the network is an explicit environment parameter mapping a URL
and a header set to the observed network event.
-/

/-- JavaScript substring search over lists of characters: does `l` start
with `pat`? -/
def charsStartsWith : List Char → List Char → Bool
  | _, [] => true
  | [], _ :: _ => false
  | c :: cs, p :: ps => c == p && charsStartsWith cs ps

/-- JavaScript substring search over lists of characters: does `l` contain
`pat` as a contiguous run? -/
def charsContains : List Char → List Char → Bool
  | [], pat => pat.isEmpty
  | c :: cs, pat => charsStartsWith (c :: cs) pat || charsContains cs pat

/-- Models JavaScript `s.includes(pat)` as used by the retry loop and the
user-agent branching in `src/server.js`. -/
def jsIncludes (s pat : String) : Bool :=
  charsContains s.data pat.data

/-- Split a character list at the first `':'`, returning the characters
before it and after it. -/
def schemeSplit : List Char → Option (List Char × List Char)
  | [] => none
  | c :: cs =>
    if c = ':' then some ([], cs)
    else
      match schemeSplit cs with
      | none => none
      | some (pre, post) => some (c :: pre, post)

/-- Characters allowed in a URL scheme after the initial letter. -/
def isSchemeChar (c : Char) : Bool :=
  c.isAlpha || c.isDigit || c == '+' || c == '-' || c == '.'

/-- Models `new URL(url).protocol` of the WHATWG URL parser for the cases
this development exercises: the lowercased scheme (letters first, then
scheme characters) up to the first `':'`, with the `':'` included, or
`none` when the constructor would throw for want of a scheme. The
remainder of the URL is not validated. -/
def urlProtocol (url : String) : Option String :=
  match schemeSplit url.data with
  | none => none
  | some (scheme, _) =>
    match scheme with
    | [] => none
    | c :: cs =>
      if c.isAlpha && cs.all isSchemeChar then
        some (String.mk ((c :: cs).map Char.toLower) ++ ":")
      else none

/-- Models `new URL(url, base).href` for the cases exercised here: an
absolute `url` (one carrying a scheme) resolves to itself; a relative one
is crudely joined onto a valid base; `none` models the constructor
throwing. Every redirect location this development follows is absolute. -/
def newUrlHref (url base : String) : Option String :=
  if (urlProtocol url).isSome then some url
  else if (urlProtocol base).isSome then some (base ++ url)
  else none

/-- Embeds `resolveUrl` (src/server.js:337-343): `new URL(url, base).href`
with the raw `url` returned when the constructor throws. -/
def resolveUrl (url base : String) : String :=
  match newUrlHref url base with
  | some href => href
  | none => url

/-- The header set built by `getEnhancedHeaders` (src/server.js:112-153).
Optional fields model keys that are present only for some browser
families (the Firefox branch deletes the Sec-Fetch keys; the client-hint
keys exist only for Chromium-family agents). -/
structure BaseHeaders where
  userAgent : String
  accept : String
  acceptLanguage : String
  acceptEncoding : String
  dnt : String
  connection : String
  upgradeInsecureRequests : String
  secFetchDest : Option String
  secFetchMode : Option String
  secFetchSite : Option String
  secFetchUser : Option String
  cacheControl : String
  secChUa : Option String
  secChUaMobile : Option String
  secChUaPlatform : Option String
deriving DecidableEq

/-- The `baseHeaders` object of `getEnhancedHeaders` (src/server.js:117-130):
`isHttps` decides whether `', br'` is appended to `Accept-Encoding`. -/
def baseHeadersFor (userAgent : String) (isHttps : Bool) : BaseHeaders :=
  { userAgent := userAgent
    accept := "text/html,application/xhtml+xml,application/xml;q=0.9,image/avif,image/webp,image/apng,*/*;q=0.8,application/signed-exchange;v=b3;q=0.7"
    acceptLanguage := "en-US,en;q=0.9,fr;q=0.8"
    acceptEncoding := "gzip, deflate" ++ (if isHttps then ", br" else "")
    dnt := "1"
    connection := "keep-alive"
    upgradeInsecureRequests := "1"
    secFetchDest := some "document"
    secFetchMode := some "navigate"
    secFetchSite := some "none"
    secFetchUser := some "?1"
    cacheControl := "max-age=0"
    secChUa := none
    secChUaMobile := none
    secChUaPlatform := none }

/-- The browser-specific mutation of the base headers
(src/server.js:132-150). -/
def applyBrowserTweaks (userAgent : String) (b : BaseHeaders) : BaseHeaders :=
  if jsIncludes userAgent "Chrome" = true ∧ jsIncludes userAgent "Edg" = false then
    { b with
      secChUa := some "\"Google Chrome\";v=\"131\", \"Chromium\";v=\"131\", \"Not_A Brand\";v=\"24\""
      secChUaMobile := some "?0"
      secChUaPlatform := some (if jsIncludes userAgent "Windows" = true then "\"Windows\"" else "\"macOS\"") }
  else if jsIncludes userAgent "Firefox" = true then
    { b with secFetchDest := none, secFetchMode := none, secFetchSite := none, secFetchUser := none }
  else if jsIncludes userAgent "Safari" = true ∧ jsIncludes userAgent "Chrome" = false then
    { b with secFetchSite := some "same-origin" }
  else if jsIncludes userAgent "Edg" = true then
    { b with
      secChUa := some "\"Microsoft Edge\";v=\"131\", \"Chromium\";v=\"131\", \"Not_A Brand\";v=\"24\""
      secChUaMobile := some "?0"
      secChUaPlatform := some "\"Windows\"" }
  else b

/-- Embeds `getEnhancedHeaders(userAgent, url)` (src/server.js:112-153):
`none` models the `new URL(url)` call throwing on an invalid URL. -/
def getEnhancedHeaders (userAgent url : String) : Option BaseHeaders :=
  match urlProtocol url with
  | none => none
  | some proto => some (applyBrowserTweaks userAgent (baseHeadersFor userAgent (proto == "https:")))

/-- Abstract wire representation of a response body: the raw octets of the
body together with how they were produced, so that the zlib codecs can be
modelled as executable partial inverses. -/
inductive Wire where
  | plain (s : String)
  | gzipped (s : String)
  | deflated (s : String)
  | brotlied (s : String)
deriving DecidableEq

/-- Models `Buffer.concat(data).toString('utf8')` applied to raw
(undecompressed) body octets: decoding still-compressed octets succeeds
but yields a string different from the underlying payload, represented
here by tagging. -/
def bufferToString : Wire → String
  | Wire.plain s => s
  | Wire.gzipped s => "<gzip-octets:" ++ s ++ ">"
  | Wire.deflated s => "<deflate-octets:" ++ s ++ ">"
  | Wire.brotlied s => "<brotli-octets:" ++ s ++ ">"

/-- Models `zlib.createGunzip()`: succeeds exactly on a gzip stream,
otherwise emits a stream error. -/
def gunzipWire : Wire → Except String String
  | Wire.gzipped s => Except.ok s
  | _ => Except.error "incorrect header check"

/-- Models `zlib.createInflate()`: succeeds exactly on a deflate stream. -/
def inflateWire : Wire → Except String String
  | Wire.deflated s => Except.ok s
  | _ => Except.error "incorrect header check"

/-- Models `zlib.createBrotliDecompress()`: succeeds exactly on a brotli
stream. -/
def brotliWire : Wire → Except String String
  | Wire.brotlied s => Except.ok s
  | _ => Except.error "Decompression failed"

/-- An HTTP response as observed by `fetchWithHeaders`: status line,
`Location` and `Content-Encoding` headers, and the body octets. -/
structure HttpResponse where
  statusCode : Nat
  statusMessage : String
  location : Option String
  contentEncoding : Option String
  wire : Wire
deriving DecidableEq

/-- What the network produces for one request: a response, a request error
(`request.on('error')`), or a timeout (`request.on('timeout')`). -/
inductive NetEvent where
  | response (r : HttpResponse)
  | reqError (msg : String)
  | reqTimeout
deriving DecidableEq

/-- Result of one fetch: the decoded body text, or the rejection message. -/
inductive FetchResult where
  | ok (html : String)
  | err (msg : String)
deriving DecidableEq

/-- JavaScript truthiness of `response.headers.location`: present and
non-empty. -/
def locationHeader (r : HttpResponse) : Option String :=
  match r.location with
  | some l => if l = "" then none else some l
  | none => none

/-- The redirect guard of src/server.js:407:
`statusCode >= 300 && statusCode < 400 && headers.location`. -/
def isRedirectB (r : HttpResponse) : Bool :=
  decide (300 ≤ r.statusCode) && decide (r.statusCode < 400) && (locationHeader r).isSome

/-- The rejection message of src/server.js:414:
`HTTP ${statusCode}: ${statusMessage}`. -/
def httpErrMsg (code : Nat) (statusMessage : String) : String :=
  ("HTTP " ++ toString code ++ ": ") ++ statusMessage

/-- The decompression dispatch of src/server.js:417-427: gzip, deflate and
br are piped through the matching codec; every other `Content-Encoding`
value (including absence and `identity`) leaves the raw octets untouched. -/
def decodeBody (enc : Option String) (w : Wire) : Except String String :=
  if enc = some "gzip" then gunzipWire w
  else if enc = some "deflate" then inflateWire w
  else if enc = some "br" then brotliWire w
  else Except.ok (bufferToString w)

/-- The body handling of src/server.js:417-440: decode per
`Content-Encoding`; a codec failure rejects with
`Stream error: ${err.message}`. -/
def decodeResult (r : HttpResponse) : FetchResult :=
  match decodeBody r.contentEncoding r.wire with
  | Except.ok s => FetchResult.ok s
  | Except.error m => FetchResult.err ("Stream error: " ++ m)

/-- Embeds `fetchWithHeaders(url, headers)` (src/server.js:389-454) against
a network environment `env`. The source recurses on every 3xx response
with a `Location` header with no bound whatever; `fuel` makes that
recursion a total function, with `none` meaning no result has been
produced within `fuel` requests. -/
def fetchWithHeaders (env : String → BaseHeaders → NetEvent) :
    Nat → String → BaseHeaders → Option FetchResult
  | 0, _, _ => none
  | fuel + 1, url, h =>
    match urlProtocol url with
    | none => some (FetchResult.err "Invalid URL")
    | some _ =>
      match env url h with
      | NetEvent.reqError m => some (FetchResult.err ("Request error: " ++ m))
      | NetEvent.reqTimeout => some (FetchResult.err "Request timeout")
      | NetEvent.response r =>
        if isRedirectB r then
          fetchWithHeaders env fuel (resolveUrl ((locationHeader r).getD "") url) h
        else if r.statusCode ≠ 200 then
          some (FetchResult.err (httpErrMsg r.statusCode r.statusMessage))
        else
          some (decodeResult r)

/-- Instrumented variant of `fetchWithHeaders` that additionally records,
for each HTTP request actually issued, the URL requested and the headers
sent with it. Its result component agrees with `fetchWithHeaders`
(proved below). -/
def fetchWithHeadersT (env : String → BaseHeaders → NetEvent) :
    Nat → String → BaseHeaders → List (String × BaseHeaders) × Option FetchResult
  | 0, _, _ => ([], none)
  | fuel + 1, url, h =>
    match urlProtocol url with
    | none => ([], some (FetchResult.err "Invalid URL"))
    | some _ =>
      match env url h with
      | NetEvent.reqError m => ([(url, h)], some (FetchResult.err ("Request error: " ++ m)))
      | NetEvent.reqTimeout => ([(url, h)], some (FetchResult.err "Request timeout"))
      | NetEvent.response r =>
        if isRedirectB r then
          ((url, h) :: (fetchWithHeadersT env fuel (resolveUrl ((locationHeader r).getD "") url) h).1,
           (fetchWithHeadersT env fuel (resolveUrl ((locationHeader r).getD "") url) h).2)
        else if r.statusCode ≠ 200 then
          ([(url, h)], some (FetchResult.err (httpErrMsg r.statusCode r.statusMessage)))
        else
          ([(url, h)], some (decodeResult r))

/-- Modelled from the spec: "the final resolved URL (post-redirects)".
`src/server.js` computes no such value; this definition follows exactly
the redirect decisions of `fetchWithHeaders` and returns the last URL
requested, for comparison with what the code actually outputs. -/
def specFinalUrl (env : String → BaseHeaders → NetEvent) :
    Nat → String → BaseHeaders → Option String
  | 0, _, _ => none
  | fuel + 1, url, h =>
    match env url h with
    | NetEvent.response r =>
      if isRedirectB r then
        specFinalUrl env fuel (resolveUrl ((locationHeader r).getD "") url) h
      else some url
    | _ => some url

/-- The randomized inter-attempt delay of `randomDelay`
(src/server.js:156-161): `Math.random() * 2000 + 500` milliseconds, with
`q` standing for the `Math.random()` draw. -/
def randomDelayMs (q : ℚ) : ℚ := q * 2000 + 500

/-- One iteration of the retry loop of `enhancedFetch`
(src/server.js:349-383): on success return the body; on failure retry
exactly when the error message contains `'403'` and attempts remain,
otherwise propagate the last error. `rem` is a structural bound on the
number of further iterations; `enhancedFetch` passes `maxRetries`, which
the guard `attempt < maxRetries` keeps from ever being exhausted early,
so the `rem = 0` branch is unreachable from `enhancedFetch`. -/
def attemptLoop (fetchOne : Nat → FetchResult) (maxRetries : Nat) : Nat → Nat → FetchResult
  | _, 0 => FetchResult.err "unreachable"
  | attempt, rem + 1 =>
    match fetchOne attempt with
    | FetchResult.ok b => FetchResult.ok b
    | FetchResult.err m =>
      if jsIncludes m "403" = true ∧ attempt < maxRetries then
        attemptLoop fetchOne maxRetries (attempt + 1) rem
      else FetchResult.err m

/-- Embeds `enhancedFetch(url, maxRetries)` (src/server.js:346-386), with
the per-attempt work (fresh user agent, fresh headers, the call to
`fetchWithHeaders`) abstracted into `fetchOne : attempt number ↦ result`. -/
def enhancedFetch (fetchOne : Nat → FetchResult) (maxRetries : Nat) : FetchResult :=
  attemptLoop fetchOne maxRetries 1 maxRetries

/-- JSON body of an `/api/extract` response; `none` marks an absent key. -/
structure ApiBody where
  success : Option Bool
  content : Option String
  url : Option String
  timestamp : Option String
  error : Option String
  suggestion : Option String
deriving DecidableEq

/-- The all-absent JSON body. -/
def emptyBody : ApiBody :=
  { success := none, content := none, url := none, timestamp := none,
    error := none, suggestion := none }

/-- An HTTP response of the extraction endpoint: status code plus body. -/
structure ApiResult where
  status : Nat
  body : ApiBody
deriving DecidableEq

/-- The `suggestion` field of the 500 response (src/server.js:493-495). -/
def suggestionFor (m : String) : String :=
  if jsIncludes m "403" = true then
    "The website is blocking automated requests. This is common for sites with anti-bot protection."
  else "Check if the URL is accessible and try again."

/-- The catch-branch response of `/api/extract` (src/server.js:488-497):
status 500 with `error.message || 'Failed to extract content'`, the
requested URL, and a suggestion. -/
def mk500 (url m : String) : ApiResult :=
  { status := 500
    body := { emptyBody with
      error := some (if m = "" then "Failed to extract content" else m)
      url := some url
      suggestion := some (suggestionFor m) } }

/-- Embeds the `/api/extract` handler (src/server.js:457-498). `extract`
abstracts the out-of-scope `extractTextContent`, `now` the timestamp,
and `fetchOne` the per-attempt fetch work fed to `enhancedFetch`.
A missing or empty (falsy) `url` is answered 400; a URL whose parse
fails or whose protocol is not http/https raises into the catch branch
(status 500), as does any fetch failure. -/
def apiExtract (extract : String → String → String) (now : String)
    (fetchOne : Nat → FetchResult) (reqUrl : Option String) : ApiResult :=
  match reqUrl with
  | none => { status := 400, body := { emptyBody with error := some "URL is required" } }
  | some url =>
    if url = "" then { status := 400, body := { emptyBody with error := some "URL is required" } }
    else
      match urlProtocol url with
      | none => mk500 url "Invalid URL"
      | some proto =>
        if proto = "http:" ∨ proto = "https:" then
          match enhancedFetch fetchOne 3 with
          | FetchResult.ok html =>
            { status := 200
              body := { emptyBody with
                success := some true
                content := some (extract html url)
                url := some url
                timestamp := some now } }
          | FetchResult.err m => mk500 url m
        else mk500 url "Only HTTP and HTTPS protocols are supported"

/-- JavaScript `v || d` for the environment strings of
src/server.js:550-551: the default is taken when the variable is unset
or empty. -/
def jsOrDefault (v : Option String) (d : String) : String :=
  match v with
  | none => d
  | some s => if s = "" then d else s

/-- The `SW_FIRST_TIME_TIMEOUT` value injected into the service worker
(src/server.js:550): `process.env.SW_FIRST_TIME_TIMEOUT || '20000'`. -/
def swFirstTimeTimeout (env : Option String) : String :=
  jsOrDefault env "20000"

/-- The `SW_RETURNING_USER_TIMEOUT` value injected into the service worker
(src/server.js:551): `process.env.SW_RETURNING_USER_TIMEOUT || '5000'`. -/
def swReturningUserTimeout (env : Option String) : String :=
  jsOrDefault env "5000"

/-- Numeric interpretation of an injected timeout string, as the service
worker's `parseInt` would read it: decimal digits, most significant
first. -/
def digitsToNat : List Char → Nat → Nat
  | [], acc => acc
  | c :: cs, acc => digitsToNat cs (acc * 10 + (c.toNat - 48))

/-- The injected timeout string read as a number of milliseconds. -/
def timeoutMs (s : String) : Nat :=
  digitsToNat s.data 0

/-- Helper: a list starting with `pat` still does so after appending. -/
theorem charsStartsWith_append (t : List Char) :
    ∀ pat l : List Char, charsStartsWith l pat = true →
      charsStartsWith (l ++ t) pat = true := by
  intro pat
  induction pat with
  | nil =>
    intro l _
    cases l ++ t <;> rfl
  | cons p ps ih =>
    intro l hl
    cases l with
    | nil => exact absurd hl (by simp [charsStartsWith])
    | cons c cs =>
      simp only [charsStartsWith, Bool.and_eq_true] at hl ⊢
      exact ⟨hl.1, ih cs hl.2⟩

/-- Helper: the empty pattern is contained in every list. -/
theorem charsContains_nil (l : List Char) : charsContains l [] = true := by
  cases l with
  | nil => rfl
  | cons c cs => simp [charsContains, charsStartsWith]

/-- Helper: containment in `l` survives appending on the right. -/
theorem charsContains_append_left (pat t : List Char) :
    ∀ l : List Char, charsContains l pat = true →
      charsContains (l ++ t) pat = true := by
  intro l
  induction l with
  | nil =>
    intro hl
    simp only [charsContains, List.isEmpty_iff] at hl
    subst hl
    simpa using charsContains_nil t
  | cons c cs ih =>
    intro hl
    simp only [charsContains, Bool.or_eq_true] at hl ⊢
    rcases hl with hl | hl
    · exact Or.inl (charsStartsWith_append t pat (c :: cs) hl)
    · exact Or.inr (ih hl)

/-- Helper: `jsIncludes` survives appending on the right. -/
theorem jsIncludes_append_left (s t pat : String)
    (hs : jsIncludes s pat = true) : jsIncludes (s ++ t) pat = true := by
  have hdata : (s ++ t).data = s.data ++ t.data := rfl
  unfold jsIncludes at hs ⊢
  rw [hdata]
  exact charsContains_append_left pat.data t.data s.data hs

/-- Helper: the browser-specific header tweaks never touch
`Accept-Encoding`. -/
theorem applyBrowserTweaks_acceptEncoding (ua : String) (b : BaseHeaders) :
    (applyBrowserTweaks ua b).acceptEncoding = b.acceptEncoding := by
  unfold applyBrowserTweaks
  split_ifs <;> rfl

/-- Helper: the accept-encoding a produced profile advertises, as a
function of the URL's protocol. -/
theorem getEnhancedHeaders_acceptEncoding (ua url : String) (h : BaseHeaders)
    (hh : getEnhancedHeaders ua url = some h) :
    ∃ proto, urlProtocol url = some proto ∧
      h.acceptEncoding = "gzip, deflate" ++ (if proto == "https:" then ", br" else "") := by
  unfold getEnhancedHeaders at hh
  cases hup : urlProtocol url with
  | none => rw [hup] at hh; exact absurd hh (by simp)
  | some proto =>
    rw [hup] at hh
    simp only [Option.some.injEq] at hh
    refine ⟨proto, rfl, ?_⟩
    rw [← hh, applyBrowserTweaks_acceptEncoding]
    rfl

/-- Claim C10: the header profile advertises brotli in `Accept-Encoding`
exactly when the URL's scheme is `https:`, while gzip and deflate are
advertised for every URL. -/
theorem acceptEncoding_br_iff_https (ua url : String) (h : BaseHeaders)
    (hh : getEnhancedHeaders ua url = some h) :
    ((jsIncludes h.acceptEncoding "br" = true) ↔ urlProtocol url = some "https:") ∧
    jsIncludes h.acceptEncoding "gzip" = true ∧
    jsIncludes h.acceptEncoding "deflate" = true := by
  obtain ⟨proto, hup, hae⟩ := getEnhancedHeaders_acceptEncoding ua url h hh
  by_cases hps : proto = "https:"
  · subst hps
    rw [hae]
    refine ⟨⟨fun _ => hup, fun _ => by decide⟩, by decide, by decide⟩
  · have hbeq : (proto == "https:") = false := by
      simpa using hps
    rw [hae, hbeq]
    refine ⟨⟨fun hbr => ?_, fun hhttps => ?_⟩, by decide, by decide⟩
    · exact absurd hbr (by decide)
    · rw [hup] at hhttps
      simp only [Option.some.injEq] at hhttps
      exact absurd hhttps hps

/-- Claim C8: under the default configuration (no environment overrides),
the timeout injected into the service worker for a first-time user is
20000 ms, the one for a returning user is 5000 ms, and the former is
strictly greater than the latter. -/
theorem sw_first_time_gt_returning :
    timeoutMs (swFirstTimeTimeout none) = 20000 ∧
    timeoutMs (swReturningUserTimeout none) = 5000 ∧
    timeoutMs (swFirstTimeTimeout none) > timeoutMs (swReturningUserTimeout none) :=
  ⟨rfl, rfl, by decide⟩

/-- A network in which every URL answers `301 Moved Permanently` pointing
back at `cycUrl`: a one-step redirect loop. -/
def cycUrl : String := "http://loop.example/"

/-- The looping environment for `cycUrl`. -/
def cycEnv : String → BaseHeaders → NetEvent := fun _ _ =>
  NetEvent.response
    { statusCode := 301, statusMessage := "Moved Permanently",
      location := some cycUrl, contentEncoding := none, wire := Wire.plain "" }

/-- A concrete header profile used by the concrete scenarios below: the
profile `getEnhancedHeaders` builds for a non-branded agent over HTTP. -/
def hdrPlainHttp : BaseHeaders := applyBrowserTweaks "TestAgent" (baseHeadersFor "TestAgent" false)

/-- Claim C2 counterexample: on a redirect loop the fetcher has produced
neither a result nor any `REDIRECT_LOOP` error after following 7 resolved
URLs (the claimed bound), nor indeed after 100. -/
theorem redirect_loop_no_result_at_7 :
    fetchWithHeaders cycEnv 7 cycUrl hdrPlainHttp = none ∧
    fetchWithHeaders cycEnv 100 cycUrl hdrPlainHttp = none :=
  ⟨rfl, rfl⟩

/-- Claim C2 (amended): `fetchWithHeaders` imposes no redirect budget at
all; on the cyclic redirect chain it recurses forever, producing no
result (in particular no `REDIRECT_LOOP` failure) under any fuel bound. -/
theorem redirect_loop_never_terminates :
    ∀ fuel, fetchWithHeaders cycEnv fuel cycUrl hdrPlainHttp = none := by
  intro fuel
  induction fuel with
  | zero => rfl
  | succ n ih =>
    calc fetchWithHeaders cycEnv (n + 1) cycUrl hdrPlainHttp
        = fetchWithHeaders cycEnv n cycUrl hdrPlainHttp := rfl
      _ = none := ih

/-- Helper: every request the instrumented fetcher records is sent with
the very header set the call was started with. -/
theorem fetchT_headers_const (env : String → BaseHeaders → NetEvent) (hp : BaseHeaders) :
    ∀ fuel url, ∀ p ∈ (fetchWithHeadersT env fuel url hp).1, p.2 = hp := by
  intro fuel
  induction fuel with
  | zero => intro url p hp2; exact absurd hp2 (by simp [fetchWithHeadersT])
  | succ n ih =>
    intro url p hmem
    cases hup : urlProtocol url with
    | none =>
      simp only [fetchWithHeadersT, hup] at hmem
      exact absurd hmem (List.not_mem_nil p)
    | some proto =>
      cases hev : env url hp with
      | reqError m =>
        simp only [fetchWithHeadersT, hup, hev, List.mem_singleton] at hmem
        rw [hmem]
      | reqTimeout =>
        simp only [fetchWithHeadersT, hup, hev, List.mem_singleton] at hmem
        rw [hmem]
      | response r =>
        simp only [fetchWithHeadersT, hup, hev] at hmem
        by_cases hred : isRedirectB r = true
        · rw [if_pos hred] at hmem
          simp only [List.mem_cons] at hmem
          rcases hmem with hmem | hmem
          · rw [hmem]
          · exact ih _ p hmem
        · rw [if_neg hred] at hmem
          by_cases h200 : r.statusCode ≠ 200
          · rw [if_pos h200] at hmem
            simp only [List.mem_singleton] at hmem
            rw [hmem]
          · rw [if_neg h200] at hmem
            simp only [List.mem_singleton] at hmem
            rw [hmem]

/-- Helper: the instrumented fetcher computes the same result as
`fetchWithHeaders`. -/
theorem fetchT_adequate (env : String → BaseHeaders → NetEvent) (hp : BaseHeaders) :
    ∀ fuel url, (fetchWithHeadersT env fuel url hp).2 = fetchWithHeaders env fuel url hp := by
  intro fuel
  induction fuel with
  | zero => intro url; rfl
  | succ n ih =>
    intro url
    cases hup : urlProtocol url with
    | none => simp only [fetchWithHeadersT, fetchWithHeaders, hup]
    | some proto =>
      cases hev : env url hp with
      | reqError m => simp only [fetchWithHeadersT, fetchWithHeaders, hup, hev]
      | reqTimeout => simp only [fetchWithHeadersT, fetchWithHeaders, hup, hev]
      | response r =>
        simp only [fetchWithHeadersT, fetchWithHeaders, hup, hev]
        by_cases hred : isRedirectB r = true
        · rw [if_pos hred, if_pos hred]
          exact ih _
        · rw [if_neg hred, if_neg hred]
          split_ifs <;> rfl

/-- Claim C9: within one attempt, every redirect hop is requested with
exactly the header profile drawn for that attempt (here: the profile
`getEnhancedHeaders` builds from the attempt's user agent `uas a` and the
requested URL); a fresh profile can enter only between top-level
attempts, never across the redirects of a single `fetchWithHeaders`
call, whose result the instrumented trace reproduces. -/
theorem headers_constant_across_redirects (env : String → BaseHeaders → NetEvent)
    (uas : Nat → String) (a fuel : Nat) (url : String) (hp : BaseHeaders)
    (_hh : getEnhancedHeaders (uas a) url = some hp) :
    (∀ p ∈ (fetchWithHeadersT env fuel url hp).1, p.2 = hp) ∧
    (fetchWithHeadersT env fuel url hp).2 = fetchWithHeaders env fuel url hp :=
  ⟨fetchT_headers_const env hp fuel url, fetchT_adequate env hp fuel url⟩

/-- Claim C4 (amended): on a terminal (non-redirect) response the fetcher
fails with `HTTP <code>: <message>` exactly when the status is not `200`;
only status 200 proceeds to body decoding. -/
theorem fetch_terminal_only_200 (env : String → BaseHeaders → NetEvent) (fuel : Nat)
    (url : String) (h : BaseHeaders) (r : HttpResponse)
    (hv : (urlProtocol url).isSome = true)
    (hr : env url h = NetEvent.response r)
    (hterm : isRedirectB r = false) :
    (r.statusCode ≠ 200 →
      fetchWithHeaders env (fuel + 1) url h =
        some (FetchResult.err (httpErrMsg r.statusCode r.statusMessage))) ∧
    (r.statusCode = 200 →
      fetchWithHeaders env (fuel + 1) url h = some (decodeResult r)) := by
  obtain ⟨proto, hup⟩ := Option.isSome_iff_exists.mp hv
  constructor
  · intro h200
    simp only [fetchWithHeaders, hup, hr, hterm, Bool.false_eq_true, if_false, if_pos h200]
  · intro h200
    have hne : ¬ r.statusCode ≠ 200 := by simp [h200]
    simp only [fetchWithHeaders, hup, hr, hterm, Bool.false_eq_true, if_false, if_neg hne]

/-- A terminal `204 No Content` response, used to refute the 2xx half of
claim C4. -/
def env204 : String → BaseHeaders → NetEvent := fun _ _ =>
  NetEvent.response
    { statusCode := 204, statusMessage := "No Content",
      location := none, contentEncoding := none, wire := Wire.plain "" }

/-- Claim C4 counterexample: a terminal 2xx status other than 200 (here
204) makes the fetcher fail with `HTTP_ERROR(204)` even though the claim
promises success for every 2xx terminal status. -/
theorem fetch_204_rejected :
    fetchWithHeaders env204 1 cycUrl hdrPlainHttp =
      some (FetchResult.err "HTTP 204: No Content") ∧
    200 ≤ 204 ∧ 204 < 300 :=
  ⟨rfl, by decide, by decide⟩

/-- Claim C5 (amended): the fetcher decompresses gzip, deflate and brotli
bodies correctly and turns a corrupt stream of a supported encoding into
a `Stream error` failure, but any other `Content-Encoding` value —
absent, `identity`, or unsupported — passes the raw octets through as a
successful result, decoded as UTF-8, rather than failing with
`NETWORK_ERROR`. -/
theorem decode_policy (w : Wire) (s : String) (enc : Option String) :
    (decodeBody (some "gzip") (Wire.gzipped s) = Except.ok s) ∧
    (decodeBody (some "deflate") (Wire.deflated s) = Except.ok s) ∧
    (decodeBody (some "br") (Wire.brotlied s) = Except.ok s) ∧
    (decodeBody none w = Except.ok (bufferToString w)) ∧
    (enc ≠ some "gzip" → enc ≠ some "deflate" → enc ≠ some "br" →
      decodeBody enc w = Except.ok (bufferToString w)) ∧
    (decodeResult
        { statusCode := 200, statusMessage := "OK", location := none,
          contentEncoding := some "gzip", wire := Wire.plain s } =
      FetchResult.err ("Stream error: " ++ "incorrect header check")) := by
  refine ⟨rfl, rfl, rfl, rfl, ?_, rfl⟩
  intro h1 h2 h3
  unfold decodeBody
  rw [if_neg h1, if_neg h2, if_neg h3]

/-- A 200 response declaring the unsupported encoding `zstd` over a body
whose octets are in fact gzip-compressed. -/
def envZstd : String → BaseHeaders → NetEvent := fun _ _ =>
  NetEvent.response
    { statusCode := 200, statusMessage := "OK", location := none,
      contentEncoding := some "zstd", wire := Wire.gzipped "secret" }

/-- Claim C5 counterexample: with the unsupported `Content-Encoding: zstd`
the fetcher succeeds and silently returns the still-encoded octets (which
differ from the payload), instead of failing with `NETWORK_ERROR`. -/
theorem unsupported_encoding_passes_through :
    fetchWithHeaders envZstd 1 cycUrl hdrPlainHttp =
      some (FetchResult.ok (bufferToString (Wire.gzipped "secret"))) ∧
    bufferToString (Wire.gzipped "secret") ≠ "secret" :=
  ⟨rfl, by decide⟩

/-- Claim C3 (amended): the retry loop returns immediately on success;
it retries (moving to the next attempt) exactly when the failure message
contains `'403'` as a substring and attempts remain, and otherwise
propagates the last error. Every `HTTP_ERROR(403)` message produced by
the fetcher contains `'403'` and is therefore retried, and the timeout
message `Request timeout` never is; each retry is preceded by a
randomized delay of `Math.random() * 2000 + 500` ms, which lies in
[500 ms, 2500 ms). -/
theorem enhancedFetch_retry_policy (fetchOne : Nat → FetchResult)
    (maxRetries attempt rem : Nat) :
    (∀ b, fetchOne attempt = FetchResult.ok b →
      attemptLoop fetchOne maxRetries attempt (rem + 1) = FetchResult.ok b) ∧
    (∀ m, fetchOne attempt = FetchResult.err m →
      jsIncludes m "403" = true → attempt < maxRetries →
      attemptLoop fetchOne maxRetries attempt (rem + 1) =
        attemptLoop fetchOne maxRetries (attempt + 1) rem) ∧
    (∀ m, fetchOne attempt = FetchResult.err m →
      (jsIncludes m "403" = false ∨ maxRetries ≤ attempt) →
      attemptLoop fetchOne maxRetries attempt (rem + 1) = FetchResult.err m) ∧
    (∀ sm, jsIncludes (httpErrMsg 403 sm) "403" = true) ∧
    (jsIncludes "Request timeout" "403" = false) ∧
    (∀ q : ℚ, 0 ≤ q → q < 1 → 500 ≤ randomDelayMs q ∧ randomDelayMs q < 2500) := by
  refine ⟨?_, ?_, ?_, ?_, by decide, ?_⟩
  · intro b hb
    simp only [attemptLoop, hb]
  · intro m hm h403 hlt
    simp only [attemptLoop, hm]
    rw [if_pos ⟨h403, hlt⟩]
  · intro m hm hstop
    simp only [attemptLoop, hm]
    rw [if_neg ?_]
    rcases hstop with hstop | hstop
    · intro hcontra
      rw [hstop] at hcontra
      exact absurd hcontra.1 (by decide)
    · intro hcontra
      exact absurd hcontra.2 (Nat.not_lt.mpr hstop)
  · intro sm
    have hdef : httpErrMsg 403 sm = "HTTP 403: " ++ sm := rfl
    rw [hdef]
    exact jsIncludes_append_left "HTTP 403: " sm "403" (by decide)
  · intro q h0 h1
    constructor
    · unfold randomDelayMs
      nlinarith
    · unfold randomDelayMs
      nlinarith

/-- Claim C3 witness: with a first attempt that succeeds, the loop
returns that body at once. -/
theorem enhancedFetch_retry_policy_witness :
    attemptLoop (fun _ => FetchResult.ok "B") 3 1 3 = FetchResult.ok "B" :=
  (enhancedFetch_retry_policy (fun _ => FetchResult.ok "B") 3 1 2).1 "B" rfl

/-- Attempt outcomes refuting claim C3: the first attempt fails with
`HTTP_ERROR(500)` whose status message happens to contain `403`, the
second succeeds. -/
def c3fetch : Nat → FetchResult := fun a =>
  if a = 1 then FetchResult.err (httpErrMsg 500 "Upstream sent 403") else FetchResult.ok "recovered"

/-- Claim C3 counterexample: an outcome that is not `HTTP_ERROR(403)` —
here `HTTP_ERROR(500)` with `403` inside the status message — is retried
instead of being propagated, because the code tests the message for the
substring `'403'`; the run ends in the second attempt's success where the
claim demands the first attempt's error. -/
theorem retry_on_non403_outcome :
    c3fetch 1 = FetchResult.err "HTTP 500: Upstream sent 403" ∧
    enhancedFetch c3fetch 3 = FetchResult.ok "recovered" ∧
    FetchResult.ok "recovered" ≠ FetchResult.err "HTTP 500: Upstream sent 403" :=
  ⟨rfl, rfl, by decide⟩

/-- Helper: a request whose URL is valid http(s) and whose fetch fails is
answered with the catch-branch 500 response for that message. -/
theorem apiExtract_err_of_valid (extract : String → String → String)
    (now : String) (fetchOne : Nat → FetchResult) (url m : String)
    (hu : urlProtocol url = some "http:" ∨ urlProtocol url = some "https:")
    (hf : enhancedFetch fetchOne 3 = FetchResult.err m) :
    apiExtract extract now fetchOne (some url) = mk500 url m := by
  have hne : url ≠ "" := by
    intro he
    subst he
    rcases hu with hu | hu <;> exact absurd hu (by decide)
  rcases hu with hu | hu
  · simp only [apiExtract, hu, hf, if_neg hne]
    simp only [true_or, if_true]
  · simp only [apiExtract, hu, hf, if_neg hne]
    simp only [or_true, if_true]

/-- Helper: a request whose URL is valid http(s) and whose fetch succeeds
is answered 200 with the success body. -/
theorem apiExtract_ok_of_valid (extract : String → String → String)
    (now : String) (fetchOne : Nat → FetchResult) (url html : String)
    (hu : urlProtocol url = some "http:" ∨ urlProtocol url = some "https:")
    (hf : enhancedFetch fetchOne 3 = FetchResult.ok html) :
    apiExtract extract now fetchOne (some url) =
      { status := 200
        body := { emptyBody with
          success := some true, content := some (extract html url),
          url := some url, timestamp := some now } } := by
  have hne : url ≠ "" := by
    intro he
    subst he
    rcases hu with hu | hu <;> exact absurd hu (by decide)
  rcases hu with hu | hu
  · simp only [apiExtract, hu, hf, if_neg hne]
    simp only [true_or, if_true]
  · simp only [apiExtract, hu, hf, if_neg hne]
    simp only [or_true, if_true]

/-- Claim C1 (amended): when every retry attempt has failed, `/api/extract`
answers with the catch-branch 500 response carrying exactly the last
attempt's failure message — there is no RenderFallback stage and no
aggregated two-part error. -/
theorem extract_exhaustion_last_error_only (extract : String → String → String)
    (now : String) (fetchOne : Nat → FetchResult) (url m : String)
    (hu : urlProtocol url = some "http:" ∨ urlProtocol url = some "https:")
    (hf : enhancedFetch fetchOne 3 = FetchResult.err m) :
    apiExtract extract now fetchOne (some url) = mk500 url m :=
  apiExtract_err_of_valid extract now fetchOne url m hu hf

/-- Claim C1 witness: a run whose single error message is `boom` yields
the 500 response built from `boom` alone. -/
theorem extract_exhaustion_witness :
    apiExtract (fun h _ => h) "TS" (fun _ => FetchResult.err "boom") (some "http://w.example/") =
      mk500 "http://w.example/" "boom" :=
  extract_exhaustion_last_error_only (fun h _ => h) "TS" (fun _ => FetchResult.err "boom")
    "http://w.example/" "boom" (Or.inl rfl) rfl

/-- Attempt outcomes refuting claim C1: all three attempts fail with
distinct 403 messages. -/
def c1fetch : Nat → FetchResult := fun a =>
  FetchResult.err (httpErrMsg 403 ("Forbidden-" ++ toString a))

/-- Claim C1 counterexample: after all three attempts fail, the extraction
response is exactly the 500 response carrying the third attempt's message;
no render fallback runs and the first attempt's description
(`Forbidden-1`) appears nowhere in the reported error, so the first error
is dropped rather than aggregated. -/
theorem no_render_fallback_first_error_dropped :
    apiExtract (fun h _ => h) "TS" c1fetch (some "https://x.example/") =
      mk500 "https://x.example/" "HTTP 403: Forbidden-3" ∧
    jsIncludes "HTTP 403: Forbidden-3" "Forbidden-1" = false :=
  ⟨rfl, by decide⟩

/-- Claim C6 (amended): the extraction API answers 200 with
`{success, content, url, timestamp}` on success; a missing (or empty)
URL is answered 400 with an `{error}` body that carries no `url` field;
and every failure raised inside the handler — a URL that does not parse,
a non-HTTP(S) protocol (although it is an input-validation failure), and
fetch exhaustion alike — is answered 500 with `{error, url, suggestion}`. -/
theorem api_response_shapes (extract : String → String → String) (now : String)
    (fetchOne : Nat → FetchResult) (url : String) :
    (apiExtract extract now fetchOne none =
      { status := 400, body := { emptyBody with error := some "URL is required" } }) ∧
    ((apiExtract extract now fetchOne none).body.url = none) ∧
    (∀ html, (urlProtocol url = some "http:" ∨ urlProtocol url = some "https:") →
      enhancedFetch fetchOne 3 = FetchResult.ok html →
      apiExtract extract now fetchOne (some url) =
        { status := 200
          body := { emptyBody with
            success := some true, content := some (extract html url),
            url := some url, timestamp := some now } }) ∧
    (∀ m, (urlProtocol url = some "http:" ∨ urlProtocol url = some "https:") →
      enhancedFetch fetchOne 3 = FetchResult.err m →
      apiExtract extract now fetchOne (some url) = mk500 url m) ∧
    (∀ proto, url ≠ "" → urlProtocol url = some proto →
      proto ≠ "http:" → proto ≠ "https:" →
      apiExtract extract now fetchOne (some url) =
        mk500 url "Only HTTP and HTTPS protocols are supported") ∧
    (∀ m, (mk500 url m).status = 500 ∧ (mk500 url m).body.url = some url ∧
      (mk500 url m).body.error.isSome = true) ∧
    (apiExtract extract now fetchOne (some "") =
      { status := 400, body := { emptyBody with error := some "URL is required" } }) ∧
    (url ≠ "" → urlProtocol url = none →
      apiExtract extract now fetchOne (some url) = mk500 url "Invalid URL") := by
  refine ⟨rfl, rfl, ?_, ?_, ?_, ?_, rfl, ?_⟩
  · intro html hu hf
    exact apiExtract_ok_of_valid extract now fetchOne url html hu hf
  · intro m hu hf
    exact apiExtract_err_of_valid extract now fetchOne url m hu hf
  · intro proto hne hup hh1 hh2
    simp only [apiExtract, hup, if_neg hne]
    rw [if_neg ?_]
    intro hcontra
    rcases hcontra with hc | hc
    · exact hh1 hc
    · exact hh2 hc
  · intro m
    exact ⟨rfl, rfl, rfl⟩
  · intro hne hup
    simp only [apiExtract, hup, if_neg hne]

/-- Claim C6 witness: a successful fetch of `http://w2.example/` produces
the 200 success shape. -/
theorem api_response_shapes_witness :
    apiExtract (fun h _ => h) "TS" (fun _ => FetchResult.ok "B") (some "http://w2.example/") =
      { status := 200
        body := { emptyBody with
          success := some true, content := some "B",
          url := some "http://w2.example/", timestamp := some "TS" } } :=
  (api_response_shapes (fun h _ => h) "TS" (fun _ => FetchResult.ok "B")
    "http://w2.example/").2.2.1 "B" (Or.inl rfl) rfl

/-- Claim C6 counterexample: the input-validation failure `ftp://…` (a
non-HTTP(S) protocol) is answered with status 500, not a 4xx status, and
the missing-URL failure body carries no `url` field, contrary to the
claimed `{error, url}` failure shape. -/
theorem api_validation_not_4xx :
    (apiExtract (fun h _ => h) "TS" (fun _ => FetchResult.err "E") (some "ftp://files.example/")).status = 500 ∧
    (apiExtract (fun h _ => h) "TS" (fun _ => FetchResult.err "E") none).body.url = none :=
  ⟨rfl, rfl⟩

/-- Claim C7 (amended): for every successful fetch the extraction
response's `url` field is the originally requested URL — `fetchWithHeaders`
resolves only the body text, so the final post-redirect URL is discarded
and never reaches the output. -/
theorem api_echoes_request_url (extract : String → String → String) (now : String)
    (fetchOne : Nat → FetchResult) (url html : String)
    (hu : urlProtocol url = some "http:" ∨ urlProtocol url = some "https:")
    (hf : enhancedFetch fetchOne 3 = FetchResult.ok html) :
    (apiExtract extract now fetchOne (some url)).body.url = some url := by
  rw [apiExtract_ok_of_valid extract now fetchOne url html hu hf]

/-- Claim C7 witness: a successful fetch echoes the requested URL. -/
theorem api_echoes_request_url_witness :
    (apiExtract (fun h _ => h) "TS" (fun _ => FetchResult.ok "B") (some "http://w3.example/")).body.url =
      some "http://w3.example/" :=
  api_echoes_request_url (fun h _ => h) "TS" (fun _ => FetchResult.ok "B")
    "http://w3.example/" "B" (Or.inl rfl) rfl

/-- The URL redirected from in the claim C7 scenario. -/
def urlA : String := "http://a.example/"

/-- The URL redirected to in the claim C7 scenario. -/
def urlB : String := "http://b.example/"

/-- A network in which `urlA` answers `301` towards `urlB` and every other
URL answers `200 OK` with body `BODY`. -/
def env7 : String → BaseHeaders → NetEvent := fun u _ =>
  if u = urlA then
    NetEvent.response
      { statusCode := 301, statusMessage := "Moved", location := some urlB,
        contentEncoding := none, wire := Wire.plain "" }
  else
    NetEvent.response
      { statusCode := 200, statusMessage := "OK", location := none,
        contentEncoding := none, wire := Wire.plain "BODY" }

/-- Claim C7 counterexample: fetching `urlA` follows one redirect and ends
at `urlB` (the final resolved URL per the spec-side `specFinalUrl`), yet
the fetcher returns only the body text and the extraction response's
`url` field is the original `urlA`, which differs from `urlB`. -/
theorem final_url_dropped :
    fetchWithHeaders env7 5 urlA hdrPlainHttp = some (FetchResult.ok "BODY") ∧
    specFinalUrl env7 5 urlA hdrPlainHttp = some urlB ∧
    (apiExtract (fun h _ => h) "TS" (fun _ => FetchResult.ok "BODY") (some urlA)).body.url = some urlA ∧
    urlA ≠ urlB :=
  ⟨rfl, rfl, rfl, by decide⟩

/-- A terminal `500 Internal Server Error` response, used as the claim C4
witness scenario. -/
def env500 : String → BaseHeaders → NetEvent := fun _ _ =>
  NetEvent.response
    { statusCode := 500, statusMessage := "Internal Server Error",
      location := none, contentEncoding := none, wire := Wire.plain "" }

/-- The response `env500` always produces. -/
def r500 : HttpResponse :=
  { statusCode := 500, statusMessage := "Internal Server Error",
    location := none, contentEncoding := none, wire := Wire.plain "" }

/-- Claim C4 witness: a terminal 500 response makes the fetcher fail with
the matching `HTTP_ERROR` message. -/
theorem fetch_terminal_only_200_witness :
    fetchWithHeaders env500 1 cycUrl hdrPlainHttp =
      some (FetchResult.err (httpErrMsg 500 "Internal Server Error")) :=
  (fetch_terminal_only_200 env500 0 cycUrl hdrPlainHttp r500 rfl rfl rfl).1 (by decide)

/-- Claim C5 witness: the unsupported encoding tag `zstd` takes the
pass-through branch. -/
theorem decode_policy_witness :
    decodeBody (some "zstd") (Wire.plain "x") = Except.ok "x" :=
  (decode_policy (Wire.plain "x") "x" (some "zstd")).2.2.2.2.1
    (by decide) (by decide) (by decide)

/-- The header profile `getEnhancedHeaders` builds for the agent
`TestAgent` over the HTTP URL `urlA`: no browser branch matches, so the
base profile without `br` results. -/
theorem hdrPlainHttp_built : getEnhancedHeaders "TestAgent" urlA = some hdrPlainHttp := rfl

/-- Claim C9 witness: in the redirecting network `env7`, the second hop's
request for `urlB` is listed in the trace with exactly the profile the
attempt started with, and the instrumented result agrees with the plain
fetcher. -/
theorem headers_constant_witness :
    (urlB, hdrPlainHttp).2 = hdrPlainHttp ∧
    (fetchWithHeadersT env7 5 urlA hdrPlainHttp).2 = fetchWithHeaders env7 5 urlA hdrPlainHttp :=
  ⟨(headers_constant_across_redirects env7 (fun _ => "TestAgent") 1 5 urlA hdrPlainHttp
      hdrPlainHttp_built).1 (urlB, hdrPlainHttp) (by decide),
   (headers_constant_across_redirects env7 (fun _ => "TestAgent") 1 5 urlA hdrPlainHttp
      hdrPlainHttp_built).2⟩

/-- The header profile `getEnhancedHeaders` builds for `TestAgent` over an
HTTPS URL: the base profile advertising `br`. -/
def hdrPlainHttps : BaseHeaders := applyBrowserTweaks "TestAgent" (baseHeadersFor "TestAgent" true)

/-- Claim C10 witness: over `https://e.example/` the produced profile
advertises `br` and `gzip`. -/
theorem acceptEncoding_witness :
    jsIncludes hdrPlainHttps.acceptEncoding "br" = true ∧
    jsIncludes hdrPlainHttps.acceptEncoding "gzip" = true :=
  ⟨(acceptEncoding_br_iff_https "TestAgent" "https://e.example/" hdrPlainHttps rfl).1.mpr rfl,
   (acceptEncoding_br_iff_https "TestAgent" "https://e.example/" hdrPlainHttps rfl).2.1⟩
